import Mathlib

/-!
Shallow embedding of the repository-content selection and retrieval subsystem
of `readme-ai-generator` (file `src/ai/tools/github-repo-tool.ts` in the
repository, provided here as an unnamed source file).  Network effects are
modelled by explicit response oracles; each embedded definition mirrors one
function or code block of the source.
-/

namespace ReadmeAI

/-- JavaScript truthiness of an optional string value: `undefined`/`null`
and the empty string are falsy, every other string is truthy. -/
def jsTruthy : Option String → Bool
  | none => false
  | some s => !s.isEmpty

/-- JavaScript truthiness of an optional number: `undefined`/`null` and `0`
are falsy. -/
def jsTruthyNat : Option Nat → Bool
  | none => false
  | some n => n != 0

/-- JavaScript `opt || dflt` on an optional string. -/
def jsOrStr (o : Option String) (dflt : String) : String :=
  match o with
  | some s => if s.isEmpty then dflt else s
  | none => dflt

/-- JavaScript `toLowerCase()` (character-wise lower-casing). -/
def toLowerStr (s : String) : String := String.mk (s.data.map Char.toLower)

/-- JavaScript `s.endsWith(suf)`. -/
def strEndsWith (s suf : String) : Bool := suf.data.isSuffixOf s.data

/-- JavaScript `s.startsWith(pre)`. -/
def strStartsWith (s pre : String) : Bool := pre.data.isPrefixOf s.data

/-- JavaScript `s.split(sep)` for a one-character separator. -/
def splitOnChar (sep : Char) : List Char → List (List Char)
  | [] => [[]]
  | c :: cs =>
    match splitOnChar sep cs with
    | [] => [[]]
    | seg :: rest => if c = sep then [] :: seg :: rest else (c :: seg) :: rest

/-- Constant `MAX_FILES_FOR_CONTENT_FETCH` from the source: maximum number of files
whose content is fetched in one run. -/
def MAX_FILES_FOR_CONTENT_FETCH : Nat := 12

/-- Constant `MAX_FILE_CONTENT_LENGTH` from the source: per-file character cap. -/
def MAX_FILE_CONTENT_LENGTH : Nat := 20000

/-- Constant `MAX_CONTRIBUTORS_TO_FETCH` from the source. -/
def MAX_CONTRIBUTORS_TO_FETCH : Nat := 15

/-- The names matched by the case-insensitive regex
`^(package\.json|pnpm-lock\.yaml|...|docker-compose\.ya?ml)$` (all
alternatives are literal file names; `ya?ml` yields the two spellings). -/
def MANIFEST_FILE_NAMES : List String :=
  ["package.json", "pnpm-lock.yaml", "yarn.lock", "package-lock.json",
   "pyproject.toml", "poetry.lock", "requirements.txt", "composer.json",
   "composer.lock", "gemfile", "gemfile.lock", "pom.xml", "build.gradle",
   "cargo.toml", "cargo.lock", "go.mod", "go.sum", "makefile", "dockerfile",
   "docker-compose.yaml", "docker-compose.yml"]

/-- Test `MANIFEST_FILES_REGEX.test name` (the `/i` flag is modelled by
lower-casing the candidate). -/
def MANIFEST_FILES_REGEX (name : String) : Bool :=
  MANIFEST_FILE_NAMES.contains (toLowerStr name)

/-- Test `README_FILES_REGEX.test name` for `^README(\.(md|rst|txt|markdown))?$/i`. -/
def README_FILES_REGEX (name : String) : Bool :=
  ["readme", "readme.md", "readme.rst", "readme.txt", "readme.markdown"].contains
    (toLowerStr name)

/-- Test `LICENSE_FILES_REGEX.test name` for `^(LICENSE|COPYING)(\.(md|txt|rst))?$/i`. -/
def LICENSE_FILES_REGEX (name : String) : Bool :=
  ["license", "license.md", "license.txt", "license.rst",
   "copying", "copying.md", "copying.txt", "copying.rst"].contains (toLowerStr name)

/-- Constant `SOURCE_FILE_EXTENSIONS` from the source. -/
def SOURCE_FILE_EXTENSIONS : List String :=
  [".js", ".ts", ".tsx", ".jsx", ".py", ".java", ".go", ".rs", ".rb", ".php",
   ".cs", ".c", ".cpp", ".swift", ".kt", ".m", ".scala", ".pl", ".sh", ".lua",
   ".sql", ".html", ".css", ".vue"]

/-- Test `COMMON_SOURCE_DIRS_REGEX.test p` for
`^(src|lib|app|source|sources|include|pkg|cmd|internal|core|main|server|client)\//i`. -/
def COMMON_SOURCE_DIRS_REGEX (p : String) : Bool :=
  ["src/", "lib/", "app/", "source/", "sources/", "include/", "pkg/", "cmd/",
   "internal/", "core/", "main/", "server/", "client/"].any
    (fun d => strStartsWith (toLowerStr p) d)

/-- Test `TEST_DIRS_REGEX.test p` for `^(test|tests|spec|e2e)\//i`. -/
def TEST_DIRS_REGEX (p : String) : Bool :=
  ["test/", "tests/", "spec/", "e2e/"].any (fun d => strStartsWith (toLowerStr p) d)

/-- Test `DOCS_DIRS_REGEX.test p` for `^(doc|docs|documentation|examples)\//i`. -/
def DOCS_DIRS_REGEX (p : String) : Bool :=
  ["doc/", "docs/", "documentation/", "examples/"].any
    (fun d => strStartsWith (toLowerStr p) d)

/-- JavaScript `String.prototype.includes`: `pat` occurs contiguously in `s`. -/
def strIncludes (s pat : String) : Bool :=
  go s.data
where
  go : List Char → Bool
    | [] => pat.data.isEmpty
    | c :: cs => pat.data.isPrefixOf (c :: cs) || go cs

/-- The `type` of a tree entry after mapping (`file`, `dir` or `symlink`),
mirroring the zod enum of `GithubRepoToolFileSchema`. -/
inductive FileType where
  | file
  | dir
  | symlink
deriving DecidableEq, BEq, Repr

/-- One entry of `repoContents` (`GithubRepoToolFileSchema`): optional fields
are `Option`s, matching `.optional()` / `.nullable()` in the schema. -/
structure GithubFile where
  name : String
  path : String
  type : FileType
  size : Option Nat := none
  content : Option String := none
  url : Option String := none
  download_url : Option String := none
  sha : Option String := none
  error : Option String := none
deriving DecidableEq, Repr

/-- Function `getFilePriority` from the source.  The inner `if` block of the source
returns early on tiers 4–6 and otherwise falls through to the tier-7/10
check; the fall-through is modelled by the intermediate `Option Nat`. -/
def getFilePriority (file : GithubFile) : Nat :=
  let lowerPath := toLowerStr file.path
  if README_FILES_REGEX file.name then 1
  else if LICENSE_FILES_REGEX file.name then 2
  else if MANIFEST_FILES_REGEX file.name then 3
  else
    let sourceBlock : Option Nat :=
      if SOURCE_FILE_EXTENSIONS.any (fun ext => strEndsWith lowerPath ext) then
        if COMMON_SOURCE_DIRS_REGEX lowerPath then some 4
        else if strIncludes lowerPath "main" || strIncludes lowerPath "app"
            || strIncludes lowerPath "index" || strIncludes lowerPath "config" then some 5
        else if !TEST_DIRS_REGEX lowerPath && !DOCS_DIRS_REGEX lowerPath then some 6
        else none
      else none
    match sourceBlock with
    | some tier => tier
    | none =>
      if DOCS_DIRS_REGEX lowerPath
          && SOURCE_FILE_EXTENSIONS.any (fun ext => strEndsWith lowerPath ext) then 7
      else 10

/-- The comparator `(a, b) => getFilePriority(a) - getFilePriority(b)`
passed to `Array.prototype.sort`, as a boolean `le`. -/
def priorityLE (a b : GithubFile) : Bool :=
  decide (getFilePriority a ≤ getFilePriority b)

/-- Model of `Array.prototype.sort` with the priority comparator.  ECMAScript
requires the sort to be stable, so it is modelled by a stable merge sort. -/
def sortByPriority (l : List GithubFile) : List GithubFile :=
  l.mergeSort priorityLE

/-- One hexadecimal digit (upper case, as produced by `encodeURIComponent`). -/
def hexDigitChar (n : Nat) : Char :=
  if n < 10 then Char.ofNat (48 + n) else Char.ofNat (55 + n)

/-- UTF-8 bytes of one code point. -/
def utf8BytesOfChar (c : Char) : List Nat :=
  let n := c.toNat
  if n < 128 then [n]
  else if n < 2048 then [192 + n / 64, 128 + n % 64]
  else if n < 65536 then [224 + n / 4096, 128 + (n / 64) % 64, 128 + n % 64]
  else [240 + n / 262144, 128 + (n / 4096) % 64, 128 + (n / 64) % 64, 128 + n % 64]

/-- The characters `encodeURIComponent` leaves unescaped: ASCII
alphanumerics and `- _ . ! ~ * ' ( )` (given by code point). -/
def isUriUnreserved (c : Char) : Bool :=
  c.isAlpha || c.isDigit || [45, 95, 46, 33, 126, 42, 39, 40, 41].contains c.toNat

/-- Percent-escape of one byte. -/
def percentEncodeByte (b : Nat) : List Char :=
  [Char.ofNat 37, hexDigitChar (b / 16), hexDigitChar (b % 16)]

/-- The ECMAScript `encodeURIComponent` builtin used when constructing raw
download URLs. -/
def encodeURIComponent (s : String) : String :=
  String.mk ((s.data.map (fun c =>
    if isUriUnreserved c then [c]
    else ((utf8BytesOfChar c).map percentEncodeByte).flatten)).flatten)

/-- The raw-content URL
`https://raw.githubusercontent.com/owner/repo/branch/encodeURIComponent(path)`
built both by `fetchFileContent` and the tree mapping. -/
def rawDownloadUrl (owner repo branch path : String) : String :=
  "https://raw.githubusercontent.com/" ++ owner ++ "/" ++ repo ++ "/"
    ++ branch ++ "/" ++ encodeURIComponent path

/-- The marker appended by `fetchFileContent` when a file is truncated. -/
def TRUNCATION_MARKER : String := "\n... (file content truncated)"

/-- JavaScript `s.substring(0, n)` (clamping at the end of the string). -/
def jsSubstring (s : String) (n : Nat) : String := String.mk (s.data.take n)

/-- Outcome of one `fetch` of a file body, abstracting the HTTP layer:
a 2xx response with its text, a 404, another non-success status, or a
thrown transport exception. -/
inductive HttpTextResponse where
  | ok (body : String)
  | notFound
  | status (code : Nat) (statusText : String)
  | exn (msg : String)
deriving DecidableEq, Repr

/-- The `{content?, error?}` object returned by `fetchFileContent`. -/
structure FetchContentResult where
  content : Option String := none
  error : Option String := none
deriving DecidableEq, Repr

/-- Lines 131–134 of `fetchFileContent`: keep the entry's own
`download_url` when truthy; otherwise, when `sha` and `path` are truthy,
construct a raw URL; otherwise leave the original (falsy) value. -/
def resolveDownloadUrl (file : GithubFile) (owner repo defaultBranch : String) :
    Option String :=
  if !jsTruthy file.download_url && jsTruthy file.sha && !file.path.isEmpty then
    some (rawDownloadUrl owner repo defaultBranch file.path)
  else file.download_url

/-- Function `fetchFileContent` from the source.  `net` is the response oracle for
the single `fetch(downloadUrl)` call; the second component of the result
lists the URLs actually requested (empty when no network call was made). -/
def fetchFileContent (net : String → HttpTextResponse) (file : GithubFile)
    (owner repo defaultBranch : String) : FetchContentResult × List String :=
  let downloadUrl := resolveDownloadUrl file owner repo defaultBranch
  match downloadUrl with
  | none =>
    ({ error := some ("No download URL could be constructed for file: " ++ file.path) }, [])
  | some u =>
    if u.isEmpty then
      ({ error := some ("No download URL could be constructed for file: " ++ file.path) }, [])
    else
      match net u with
      | .ok textContent =>
        if textContent.length > MAX_FILE_CONTENT_LENGTH then
          ({ content := some (jsSubstring textContent MAX_FILE_CONTENT_LENGTH
              ++ TRUNCATION_MARKER) }, [u])
        else
          ({ content := some textContent }, [u])
      | .notFound =>
        ({ error := some ("File content not found at " ++ u ++ " (404).") }, [u])
      | .status code statusText =>
        ({ error := some ("Failed to fetch file content from " ++ u ++ ". Status: "
            ++ toString code ++ " " ++ statusText) }, [u])
      | .exn m =>
        ({ error := some ("Exception fetching file content: " ++ m) }, [u])

/-- The `isPriorityFile` test of the selection loop (line 281):
README, manifest or license name. -/
def isPriorityFile (file : GithubFile) : Bool :=
  README_FILES_REGEX file.name || MANIFEST_FILES_REGEX file.name
    || LICENSE_FILES_REGEX file.name

/-- The large-file skip condition of line 282:
`file.size && file.size > MAX_FILE_CONTENT_LENGTH * 3 && !isPriorityFile`. -/
def isSkippedLarge (file : GithubFile) : Bool :=
  jsTruthyNat file.size
    && decide (file.size.getD 0 > MAX_FILE_CONTENT_LENGTH * 3)
    && !isPriorityFile file

/-- The per-entry error recorded for skipped large files (line 283). -/
def tooLargeError (size : Nat) : String :=
  "File too large to fetch content (" ++ toString size ++ " bytes). Not a priority file."

/-- The over-budget annotation of line 297. -/
def LIMIT_ERROR : String :=
  "Content not fetched due to limit (MAX_FILES_FOR_CONTENT_FETCH reached)."

/-- The over-budget relevance test of line 294: README, manifest or license
name, or a path ending (case-sensitively) in a recognized source extension. -/
def overBudgetRelevant (file : GithubFile) : Bool :=
  README_FILES_REGEX file.name || MANIFEST_FILES_REGEX file.name
    || LICENSE_FILES_REGEX file.name
    || SOURCE_FILE_EXTENSIONS.any (fun ext => strEndsWith file.path ext)

/-- The over-budget minimal entry of lines 295–297: content deleted, error
kept if already truthy, otherwise set to the limit annotation. -/
def minimalEntry (file : GithubFile) : GithubFile :=
  { file with content := none,
              error := if jsTruthy file.error then file.error else some LIMIT_ERROR }

/-- The budgeted selection loop of lines 276–301 over the tier-sorted file
list, with `fetch` standing for the (awaited) call to `fetchFileContent`.
The accumulator is `fetchedContentCount`. -/
def selectionLoop (fetch : GithubFile → FetchContentResult) :
    List GithubFile → Nat → List GithubFile
  | [], _ => []
  | file :: rest, fetchedContentCount =>
    if fetchedContentCount < MAX_FILES_FOR_CONTENT_FETCH then
      if isSkippedLarge file then
        { file with content := none, error := some (tooLargeError (file.size.getD 0)) }
          :: selectionLoop fetch rest fetchedContentCount
      else
        let r := fetch file
        { file with content := r.content,
                    error := if jsTruthy r.error then r.error else file.error }
          :: selectionLoop fetch rest
              (if jsTruthy r.content && !jsTruthy r.error then fetchedContentCount + 1
               else fetchedContentCount)
    else
      if overBudgetRelevant file then
        minimalEntry file :: selectionLoop fetch rest fetchedContentCount
      else
        selectionLoop fetch rest fetchedContentCount

/-- Expression `pathname.split('/').filter(Boolean)` of line 189. -/
def splitPathParts (pathname : String) : List String :=
  ((splitOnChar '/' pathname.data).map String.mk).filter (fun s => !s.isEmpty)

/-- Expression `repo.replace(/\.git$/, '')` of line 194: remove one trailing `.git`. -/
def stripGitSuffix (s : String) : String :=
  if ".git".data.isSuffixOf s.data then String.mk (s.data.take (s.data.length - 4))
  else s

/-- Lines 186–194: extract `owner` and `repo` from the pathname of the
input URL, failing when fewer than two non-empty path segments exist. -/
def parseOwnerRepo (pathname : String) : Except String (String × String) :=
  match splitPathParts pathname with
  | owner :: second :: _ => .ok (owner, stripGitSuffix second)
  | _ => .error "Invalid GitHub repository URL format. Could not extract owner/repo."

/-- The fields of the repository-details response that the tool reads. -/
structure RepoDetails where
  name : String
  description : Option String := none
  language : Option String := none
  default_branch : Option String := none

/-- Outcome of `GET /repos/{owner}/{repo}`. -/
inductive MetaResp where
  | ok (details : RepoDetails)
  | fail (status : Nat) (statusText : String)
  | exn (msg : String)

/-- The diagnostic message of lines 211–218, classified by status code. -/
def metaErrorMessage (status : Nat) (statusText : String) : String :=
  let base := "Failed to fetch repository details. Status: " ++ toString status
    ++ " " ++ statusText ++ ". "
  if status == 404 then
    base ++ "This could be an invalid URL or a private repository for which the provided token (if any) is invalid or lacks permissions."
  else if status == 401 || status == 403 then
    base ++ "Authentication failed. Ensure your GitHub Personal Access Token is correct and has the \x27repo\x27 scope if accessing a private repository."
  else
    base ++ "This could also be due to API rate limits."

/-- One item of the recursive git-tree response. -/
structure TreeItem where
  path : String
  type : String
  size : Option Nat := none
  sha : Option String := none
  url : Option String := none

/-- Outcome of the recursive tree request (lines 234–249); `truncated`
mirrors the `truncated` flag of the response. -/
inductive TreeResp where
  | ok (truncated : Bool) (tree : List TreeItem)
  | fail (status : Nat) (statusText : String)
  | exn (msg : String)

/-- One item of the shallow top-level contents response. -/
structure ContentsItem where
  name : String
  path : String
  type : FileType
  size : Option Nat := none
  sha : Option String := none
  url : Option String := none
  download_url : Option String := none

/-- Outcome of the fallback `GET .../contents` request (lines 252–263). -/
inductive ContentsResp where
  | ok (items : List ContentsItem)
  | fail (status : Nat) (statusText : String)
  | exn (msg : String)

/-- Expression `item.path.split('/').pop() || item.path` of line 242. -/
def treeItemName (path : String) : String :=
  let last := String.mk ((splitOnChar '/' path.data).getLastD [])
  if last.isEmpty then path else last

/-- The tree-item mapping of lines 240–249. -/
def mapTreeItem (owner repo branch : String) (item : TreeItem) : GithubFile :=
  { name := treeItemName item.path
    path := item.path
    type := if item.type == "blob" then .file
            else if item.type == "tree" then .dir else .symlink
    size := item.size
    sha := item.sha
    url := item.url
    download_url := if item.type == "blob" then
        some (rawDownloadUrl owner repo branch item.path)
      else none }

/-- The `download_url` normalization of line 262:
`(du && String(du).trim() !== '') ? String(du).trim() : null`. -/
def normalizeDownloadUrl (du : Option String) : Option String :=
  match du with
  | some s => if !s.isEmpty && !s.trim.isEmpty then some s.trim else none
  | none => none

/-- The contents-item mapping of lines 255–263. -/
def mapContentsItem (item : ContentsItem) : GithubFile :=
  { name := item.name
    path := item.path
    type := item.type
    size := item.size
    sha := item.sha
    url := item.url
    download_url := normalizeDownloadUrl item.download_url }

/-- Lines 233–271: build the file inventory.  The primary recursive tree
response is used when successful; on a non-success status the shallow
contents listing is consulted; a thrown exception aborts without fallback.
The boolean records whether the fallback request was issued. -/
def treePhase (owner repo branch : String) (tr : TreeResp) (cr : ContentsResp) :
    Except String (List GithubFile) × Bool :=
  match tr with
  | .ok _ items => (.ok (items.map (mapTreeItem owner repo branch)), false)
  | .exn m => (.error ("Exception fetching repository tree structure: " ++ m), false)
  | .fail _ treeStatusText =>
    match cr with
    | .ok items => (.ok (items.map mapContentsItem), true)
    | .exn m => (.error ("Exception fetching repository tree structure: " ++ m), true)
    | .fail _ contentsStatusText =>
      (.error ("Failed to fetch repository contents. Tree Error: " ++ treeStatusText
        ++ ", Contents Error: " ++ contentsStatusText), true)

/-- One raw record of the contributors response, before filtering. -/
structure RawContributor where
  login : Option String := none
  avatar_url : Option String := none
  html_url : Option String := none
  contributions : Option Nat := none
  type : String := ""

/-- A filtered contributor (`GithubContributorSchema`). -/
structure GithubContributor where
  login : String
  avatar_url : String
  html_url : String
  contributions : Option Nat := none
deriving DecidableEq, Repr

/-- Outcome of the contributors request; `okNonArray` models a 2xx
response whose JSON body is not an array (lines 310–320 leave the list
undefined in that case). -/
inductive ContribResp where
  | ok (items : List RawContributor)
  | okNonArray
  | fail (status : Nat) (statusText : String)
  | exn (msg : String)

/-- Lines 305–326: filter out bots and records missing identity fields,
map to the output shape, and truncate to `MAX_CONTRIBUTORS_TO_FETCH`.
Failures leave the list undefined. -/
def contribPhase (cr : ContribResp) : Option (List GithubContributor) :=
  match cr with
  | .ok items =>
    some (((items.filter (fun c => c.type != "Bot" && jsTruthy c.login
        && jsTruthy c.avatar_url && jsTruthy c.html_url)).map
      (fun c => { login := c.login.getD "", avatar_url := c.avatar_url.getD "",
                  html_url := c.html_url.getD "",
                  contributions := c.contributions })).take MAX_CONTRIBUTORS_TO_FETCH)
  | _ => none

/-- The tool's result object (`GithubRepoToolOutputSchema`); the constant
`toolInput` echo field is omitted. -/
structure ToolOutput where
  repoName : Option String := none
  description : Option String := none
  mainLanguage : Option String := none
  repoContents : Option (List GithubFile) := none
  contributors : Option (List GithubContributor) := none
  error : Option String := none

/-- The environment of one tool invocation: the pathname produced by
`new URL(repoUrl)` (or the constructor's exception message) and the
response of each request the tool can make. -/
structure RepoEnv where
  urlParse : Except String String
  metaResp : MetaResp
  treeResp : TreeResp
  contentsResp : ContentsResp
  net : String → HttpTextResponse
  contribResp : ContribResp

/-- The body of `fetchRepoInfoTool` (lines 185–336) as a pure function of
the request environment. -/
def fetchRepoInfoTool (env : RepoEnv) : ToolOutput :=
  match env.urlParse with
  | .error m => { error := some ("Invalid repository URL: " ++ m) }
  | .ok pathname =>
    match parseOwnerRepo pathname with
    | .error e => { error := some e }
    | .ok (owner, repo) =>
      match env.metaResp with
      | .fail status statusText => { error := some (metaErrorMessage status statusText) }
      | .exn m => { error := some ("Exception fetching repository details: " ++ m) }
      | .ok details =>
        let defaultBranch := jsOrStr details.default_branch "master"
        match treePhase owner repo defaultBranch env.treeResp env.contentsResp with
        | (.error e, _) => { error := some e }
        | (.ok allFilesFromTree, _) =>
          let filesOnly := allFilesFromTree.filter
            (fun f => f.type == FileType.file && !f.path.isEmpty)
          let sortedFiles := sortByPriority filesOnly
          let repoContents := selectionLoop
            (fun f => (fetchFileContent env.net f owner repo defaultBranch).1)
            sortedFiles 0
          let repoContents := sortByPriority repoContents
          { repoName := some details.name
            description := details.description
            mainLanguage := details.language
            repoContents := if repoContents.length > 0 then some repoContents else none
            contributors := contribPhase env.contribResp
            error := none }

/-!  Helper lemmas shared by several claims. -/

/-- The priority comparator is transitive. -/
theorem priorityLE_trans (a b c : GithubFile) (h1 : priorityLE a b = true)
    (h2 : priorityLE b c = true) : priorityLE a c = true := by
  simp only [priorityLE, decide_eq_true_eq] at h1 h2 ⊢
  exact Nat.le_trans h1 h2

/-- The priority comparator is total. -/
theorem priorityLE_total (a b : GithubFile) :
    (priorityLE a b || priorityLE b a) = true := by
  simp only [priorityLE]
  rcases Nat.le_total (getFilePriority a) (getFilePriority b) with h | h <;> simp [h]

/-- Every element of `splitPathParts` is a non-empty segment. -/
theorem mem_splitPathParts_ne_empty {pathname x : String}
    (hx : x ∈ splitPathParts pathname) : x ≠ "" := by
  intro hx0
  subst hx0
  exact absurd (List.mem_filter.mp hx).2 (by decide)

/-- Stripping a trailing `.git` from a segment that is neither empty nor
exactly `.git` leaves a non-empty string. -/
theorem stripGitSuffix_ne_empty {s : String} (h0 : s ≠ "")
    (h1 : s ≠ ".git") : stripGitSuffix s ≠ "" := by
  unfold stripGitSuffix
  split
  · rename_i hsuf
    obtain ⟨t, ht⟩ := List.isSuffixOf_iff_suffix.mp hsuf
    intro hcontra
    have htake : s.data.take (s.data.length - 4) = t := by
      rw [← ht]
      have hl4 : (t ++ ".git".data).length - 4 = t.length := by
        rw [List.length_append]
        have h4 : (".git".data).length = 4 := rfl
        omega
      rw [hl4]
      exact List.take_left t (".git".data)
    have hdata : s.data.take (s.data.length - 4) = ([] : List Char) :=
      congrArg String.data hcontra
    rw [htake] at hdata
    apply h1
    apply String.ext
    rw [← ht, hdata]
    simp
  · exact h0

/-- In the file, priority-tier sort outputs are `Pairwise`-sorted. -/
theorem sortByPriority_pairwise (l : List GithubFile) :
    List.Pairwise (fun a b => getFilePriority a ≤ getFilePriority b)
      (sortByPriority l) := by
  have h := List.sorted_mergeSort priorityLE_trans priorityLE_total l
  exact h.imp (fun hab => by
    simpa [priorityLE, decide_eq_true_eq] using hab)

/-- C2.  For every file whose fetched text exceeds the per-file character
cap (20000), the content fetcher returns content of length exactly
cap + length of the truncation marker and leaves `error` unset; content at
or below the cap is returned unchanged (and also sets no error). -/
theorem c2_theorem (net : String → HttpTextResponse) (file : GithubFile)
    (owner repo branch u body : String)
    (hres : resolveDownloadUrl file owner repo branch = some u)
    (hne : u.isEmpty = false)
    (hnet : net u = .ok body) :
    (fetchFileContent net file owner repo branch).1.error = none ∧
    (MAX_FILE_CONTENT_LENGTH < body.length →
      ∃ s, (fetchFileContent net file owner repo branch).1.content = some s ∧
        s.length = MAX_FILE_CONTENT_LENGTH + TRUNCATION_MARKER.length) ∧
    (body.length ≤ MAX_FILE_CONTENT_LENGTH →
      (fetchFileContent net file owner repo branch).1.content = some body) := by
  have hfc : fetchFileContent net file owner repo branch =
      if body.length > MAX_FILE_CONTENT_LENGTH then
        ({ content := some (jsSubstring body MAX_FILE_CONTENT_LENGTH
            ++ TRUNCATION_MARKER) }, [u])
      else ({ content := some body }, [u]) := by
    unfold fetchFileContent
    rw [hres]
    simp [hne, hnet]
  rw [hfc]
  by_cases hlen : MAX_FILE_CONTENT_LENGTH < body.length
  · refine ⟨by simp [hlen], fun _ => ?_, fun hle => by omega⟩
    refine ⟨jsSubstring body MAX_FILE_CONTENT_LENGTH ++ TRUNCATION_MARKER,
      by simp [hlen], ?_⟩
    rw [String.length_append]
    have h1 : (jsSubstring body MAX_FILE_CONTENT_LENGTH).length =
        MAX_FILE_CONTENT_LENGTH := by
      show (body.data.take MAX_FILE_CONTENT_LENGTH).length = MAX_FILE_CONTENT_LENGTH
      rw [List.length_take]
      have : MAX_FILE_CONTENT_LENGTH < body.data.length := hlen
      omega
    rw [h1]
  · have hle : ¬ (body.length > MAX_FILE_CONTENT_LENGTH) := hlen
    refine ⟨by simp [hle], fun h => absurd h hlen, fun _ => by simp [hle]⟩

/-- Witness for C2 at a concrete oversized and an in-cap fetch. -/
theorem c2_witness :
    resolveDownloadUrl
        { name := "big.txt", path := "big.txt", type := FileType.file,
          download_url := some "https://x" } "acme" "widget" "main" =
      some "https://x" ∧
    ("https://x" : String).isEmpty = false ∧
    MAX_FILE_CONTENT_LENGTH < (String.mk (List.replicate 20001 'a')).length ∧
    ((fetchFileContent (fun _ => .ok (String.mk (List.replicate 20001 'a')))
        { name := "big.txt", path := "big.txt", type := FileType.file,
          download_url := some "https://x" } "acme" "widget" "main").1.error = none ∧
      ∃ s, (fetchFileContent (fun _ => .ok (String.mk (List.replicate 20001 'a')))
        { name := "big.txt", path := "big.txt", type := FileType.file,
          download_url := some "https://x" } "acme" "widget" "main").1.content = some s ∧
        s.length = MAX_FILE_CONTENT_LENGTH + TRUNCATION_MARKER.length) ∧
    (fetchFileContent (fun _ => .ok "short")
        { name := "big.txt", path := "big.txt", type := FileType.file,
          download_url := some "https://x" } "acme" "widget" "main").1.content =
      some "short" := by
  have hlen : MAX_FILE_CONTENT_LENGTH < (String.mk (List.replicate 20001 'a')).length := by
    show MAX_FILE_CONTENT_LENGTH < (List.replicate 20001 'a').length
    rw [List.length_replicate]
    decide
  have h1 := c2_theorem (fun _ => .ok (String.mk (List.replicate 20001 'a')))
    { name := "big.txt", path := "big.txt", type := FileType.file,
      download_url := some "https://x" } "acme" "widget" "main" "https://x"
    (String.mk (List.replicate 20001 'a')) (by decide) (by decide) rfl
  have h2 := c2_theorem (fun _ => .ok "short")
    { name := "big.txt", path := "big.txt", type := FileType.file,
      download_url := some "https://x" } "acme" "widget" "main" "https://x"
    "short" (by decide) (by decide) rfl
  exact ⟨by decide, by decide, hlen, ⟨h1.1, h1.2.1 hlen⟩, h2.2.2 (by decide)⟩

/-- File used in the C3 counterexample: a file entry with a (non-empty)
path but neither a `download_url` nor a `sha`. -/
def c3File : GithubFile := { name := "a.txt", path := "a.txt", type := FileType.file }

/-- C3 counterexample.  The claim says a download URL is constructed from
owner/repo/branch/path whenever the entry has no URL of its own, and the
no-URL error occurs only when no URL can be resolved at all.  `c3File` has
a non-empty path (so a URL could be built from it), yet because its `sha`
is absent the code returns the no-URL error with no network attempt. -/
theorem c3_counterexample :
    c3File.path = "a.txt" ∧ c3File.download_url = none ∧
    fetchFileContent (fun _ => .ok "hello") c3File "acme" "widget" "main" =
      ({ content := none,
         error := some "No download URL could be constructed for file: a.txt" }, []) := by
  refine ⟨rfl, rfl, ?_⟩
  decide

/-- C3 amended.  When the entry has no truthy download URL but has a truthy
`sha` and a non-empty path, the fetcher deterministically constructs the
raw URL from owner/repo/branch/path; and whenever the resolved URL is
falsy (missing or empty), the fetcher returns the no-URL error without
attempting any network call (empty request list). -/
theorem c3_theorem (net : String → HttpTextResponse) (file : GithubFile)
    (owner repo branch : String) :
    (jsTruthy file.download_url = false → jsTruthy file.sha = true →
      file.path.isEmpty = false →
      resolveDownloadUrl file owner repo branch =
        some (rawDownloadUrl owner repo branch file.path)) ∧
    (jsTruthy (resolveDownloadUrl file owner repo branch) = false →
      fetchFileContent net file owner repo branch =
        ({ content := none,
           error := some ("No download URL could be constructed for file: "
             ++ file.path) }, [])) := by
  constructor
  · intro h1 h2 h3
    unfold resolveDownloadUrl
    simp [h1, h2, h3]
  · intro h
    unfold fetchFileContent
    cases hd : resolveDownloadUrl file owner repo branch with
    | none => rfl
    | some u =>
      rw [hd] at h
      have hu : u.isEmpty = true := by
        simpa [jsTruthy] using h
      simp [hu]

/-- Witness for C3: both conjuncts exercised at concrete entries. -/
theorem c3_witness :
    jsTruthy (some "abc123" : Option String) = true ∧
    ("dir/a.ts" : String).isEmpty = false ∧
    resolveDownloadUrl
        { name := "a.ts", path := "dir/a.ts", type := FileType.file,
          sha := some "abc123" } "acme" "widget" "main" =
      some (rawDownloadUrl "acme" "widget" "main" "dir/a.ts") ∧
    jsTruthy (resolveDownloadUrl c3File "acme" "widget" "main") = false ∧
    fetchFileContent (fun _ => .ok "hello") c3File "acme" "widget" "main" =
      ({ content := none,
         error := some ("No download URL could be constructed for file: "
           ++ c3File.path) }, []) := by
  have h1 := (c3_theorem (fun _ => .ok "hello")
    { name := "a.ts", path := "dir/a.ts", type := FileType.file,
      sha := some "abc123" } "acme" "widget" "main").1 (by decide) (by decide) (by decide)
  have h2 := (c3_theorem (fun _ => .ok "hello") c3File "acme" "widget" "main").2 (by decide)
  exact ⟨by decide, by decide, h1, by decide, h2⟩

/-- C4 counterexample.  The URL pathname `/acme/.git` has two non-empty
path segments, so parsing succeeds; but stripping the trailing `.git`
from the second segment leaves an *empty* repo name, contradicting the
claimed invariant that both owner and repo are non-empty. -/
theorem c4_counterexample :
    (splitPathParts "/acme/.git").length = 2 ∧
    parseOwnerRepo "/acme/.git" = .ok ("acme", "") := by
  constructor
  · decide
  · rfl

/-- C4 amended.  Parsing fails fast with the descriptive error when the
pathname has fewer than two non-empty segments; on success the owner is
the first (non-empty) segment and the repo is the second segment with one
trailing `.git` stripped — the repo is non-empty except in the corner case
where the second segment is exactly `.git`. -/
theorem c4_theorem (pathname : String) :
    ((splitPathParts pathname).length < 2 →
      parseOwnerRepo pathname =
        .error "Invalid GitHub repository URL format. Could not extract owner/repo.") ∧
    (∀ owner repo, parseOwnerRepo pathname = .ok (owner, repo) →
      owner ≠ "" ∧
      ∃ second rest, splitPathParts pathname = owner :: second :: rest ∧
        second ≠ "" ∧ repo = stripGitSuffix second ∧
        (second ≠ ".git" → repo ≠ "")) := by
  constructor
  · intro hlen
    unfold parseOwnerRepo
    rcases h : splitPathParts pathname with _ | ⟨a, _ | ⟨b, t⟩⟩
    · rfl
    · rfl
    · rw [h] at hlen
      simp at hlen
      omega
  · intro owner repo hok
    unfold parseOwnerRepo at hok
    rcases h : splitPathParts pathname with _ | ⟨a, _ | ⟨b, t⟩⟩ <;> rw [h] at hok
    · exact absurd hok (by simp)
    · exact absurd hok (by simp)
    · simp only [Except.ok.injEq, Prod.mk.injEq] at hok
      obtain ⟨ha, hb⟩ := hok
      subst ha
      subst hb
      have hmem_a : a ∈ splitPathParts pathname := by rw [h]; exact List.mem_cons_self _ _
      have hmem_b : b ∈ splitPathParts pathname := by
        rw [h]; exact List.mem_cons_of_mem _ (List.mem_cons_self _ _)
      exact ⟨mem_splitPathParts_ne_empty hmem_a, b, t, rfl,
        mem_splitPathParts_ne_empty hmem_b, rfl,
        fun hbg => stripGitSuffix_ne_empty (mem_splitPathParts_ne_empty hmem_b) hbg⟩

/-- Witness for C4: the failure branch on `/acme` and the success branch
on `/acme/widget.git`. -/
theorem c4_witness :
    ((splitPathParts "/acme").length < 2 ∧
      parseOwnerRepo "/acme" =
        .error "Invalid GitHub repository URL format. Could not extract owner/repo.") ∧
    (parseOwnerRepo "/acme/widget.git" = .ok ("acme", "widget") ∧
      "acme" ≠ "" ∧
      ∃ second rest, splitPathParts "/acme/widget.git" = "acme" :: second :: rest ∧
        second ≠ "" ∧ "widget" = stripGitSuffix second ∧
        (second ≠ ".git" → "widget" ≠ "")) := by
  have h1 := (c4_theorem (id "/acme")).1 (by decide)
  have hok : parseOwnerRepo "/acme/widget.git" = .ok ("acme", "widget") := by rfl
  have h2 := (c4_theorem (id "/acme/widget.git")).2 "acme" "widget" hok
  exact ⟨⟨by decide, h1⟩, hok, h2⟩

/-- C5.  Any file entry whose name matches the README filename pattern is
classified tier 1, whatever its path. -/
theorem c5_theorem (file : GithubFile)
    (h : README_FILES_REGEX file.name = true) : getFilePriority file = 1 := by
  simp [getFilePriority, h]

/-- Witness for C5 at a README deep inside the tree, with mixed case. -/
theorem c5_witness :
    README_FILES_REGEX "ReadMe.MD" = true ∧
    getFilePriority
      { name := "ReadMe.MD", path := "deeply/nested/dir/ReadMe.MD",
        type := FileType.file } = 1 :=
  ⟨by decide,
   c5_theorem
     { name := "ReadMe.MD", path := "deeply/nested/dir/ReadMe.MD",
       type := FileType.file } (by decide)⟩

/-- Number of output entries that carry successfully fetched content in
the sense of the spec sentence behind C1: a `content` field present
together with an unset `error` field. -/
def successfulContentCount (l : List GithubFile) : Nat :=
  (l.filter (fun f => f.content.isSome && f.error.isNone)).length

/-- Number of output entries whose content is present, non-empty, and came
with no error — exactly the entries for which the loop incremented
`fetchedContentCount`. -/
def fetchedNonEmptyCount (l : List GithubFile) : Nat :=
  (l.filter (fun f => jsTruthy f.content && f.error.isNone)).length

/-- Unfolding `fetchedNonEmptyCount` over a cons. -/
theorem fetchedNonEmptyCount_cons (f : GithubFile) (l : List GithubFile) :
    fetchedNonEmptyCount (f :: l) =
      (if jsTruthy f.content && f.error.isNone then 1 else 0) + fetchedNonEmptyCount l := by
  simp only [fetchedNonEmptyCount, List.filter_cons]
  split
  · simp [Nat.add_comm]
  · simp

/-- A truthy optional string is not `none`. -/
theorem jsTruthy_isNone {o : Option String} (h : jsTruthy o = true) :
    o.isNone = false := by
  cases o with
  | none => simp [jsTruthy] at h
  | some s => rfl

/-- Budget invariant of the selection loop: starting from any counter value
below or at the cap, the number of output entries with truthy content and
no error, plus the starting counter, never exceeds the cap. -/
theorem selectionLoop_budget (fetch : GithubFile → FetchContentResult)
    (l : List GithubFile) :
    ∀ cnt : Nat, cnt ≤ MAX_FILES_FOR_CONTENT_FETCH →
      fetchedNonEmptyCount (selectionLoop fetch l cnt) + cnt ≤
        MAX_FILES_FOR_CONTENT_FETCH := by
  induction l with
  | nil =>
    intro cnt hcnt
    simpa [selectionLoop, fetchedNonEmptyCount] using hcnt
  | cons f rest ih =>
    intro cnt hcnt
    simp only [selectionLoop]
    by_cases hin : cnt < MAX_FILES_FOR_CONTENT_FETCH
    · simp only [hin, if_true]
      by_cases hskip : isSkippedLarge f = true
      · have := ih cnt hcnt
        simp [hskip, fetchedNonEmptyCount_cons, jsTruthy]
        omega
      · cases hc : jsTruthy (fetch f).content with
        | false =>
          have := ih cnt hcnt
          simp [hskip, hc, fetchedNonEmptyCount_cons]
          omega
        | true =>
          cases he : jsTruthy (fetch f).error with
          | true =>
            have := ih cnt hcnt
            simp [hskip, hc, he, fetchedNonEmptyCount_cons, jsTruthy_isNone he]
            omega
          | false =>
            have := ih (cnt + 1) (by omega)
            simp [hskip, hc, he, fetchedNonEmptyCount_cons]
            split <;> omega
    · have := ih cnt hcnt
      by_cases hrel : overBudgetRelevant f = true
      · simp [hin, hrel, fetchedNonEmptyCount_cons, minimalEntry, jsTruthy]
        omega
      · simp [hin, hrel]
        omega

/-- Files used in the C1 counterexample: thirteen plain text files. -/
def c1Files : List GithubFile :=
  (List.range 13).map (fun i =>
    { name := "empty" ++ toString i ++ ".txt",
      path := "empty" ++ toString i ++ ".txt",
      type := FileType.file })

/-- C1 counterexample.  Thirteen files whose bodies fetch successfully as
the *empty* string are all recorded with `content` present and no error,
yet none of them increments the budget counter (the code tests JavaScript
truthiness, and the empty string is falsy).  The run therefore ends with
13 > 12 entries carrying successfully fetched content, refuting the
claimed bound as stated. -/
theorem c1_counterexample :
    MAX_FILES_FOR_CONTENT_FETCH <
      successfulContentCount
        (selectionLoop (fun _ => { content := some "", error := none }) c1Files 0) := by
  decide

/-- C1 amended.  The number of output entries with successfully fetched
*non-empty* content never exceeds `MAX_FILES_FOR_CONTENT_FETCH`, and the
counter is advanced only on a fetch returning truthy content with no
truthy error: a failed attempt leaves the counter unchanged (the recursive
call below continues with the same `cnt`). -/
theorem c1_theorem (fetch : GithubFile → FetchContentResult) (l : List GithubFile) :
    fetchedNonEmptyCount (selectionLoop fetch l 0) ≤ MAX_FILES_FOR_CONTENT_FETCH ∧
    (∀ file rest cnt, cnt < MAX_FILES_FOR_CONTENT_FETCH →
      isSkippedLarge file = false →
      (jsTruthy (fetch file).content && !jsTruthy (fetch file).error) = false →
      selectionLoop fetch (file :: rest) cnt =
        { file with content := (fetch file).content,
                    error := if jsTruthy (fetch file).error then (fetch file).error
                             else file.error } :: selectionLoop fetch rest cnt) := by
  constructor
  · have h := selectionLoop_budget fetch l 0 (by omega)
    omega
  · intro file rest cnt hcnt hskip hinc
    simp only [selectionLoop, hcnt, if_true, hskip, Bool.false_eq_true, if_false, hinc]

/-- Witness for C1: a run over one file whose fetch fails. -/
theorem c1_witness :
    fetchedNonEmptyCount
        (selectionLoop (fun _ => { content := none, error := some "boom" })
          [{ name := "a.ts", path := "a.ts", type := FileType.file }] 0) ≤
      MAX_FILES_FOR_CONTENT_FETCH ∧
    selectionLoop (fun _ => ({ content := none, error := some "boom" } : FetchContentResult))
        [{ name := "a.ts", path := "a.ts", type := FileType.file }] 0 =
      [{ name := "a.ts", path := "a.ts", type := FileType.file,
         content := none, error := some "boom" }] := by
  have h := c1_theorem (fun _ => { content := none, error := some "boom" })
    [{ name := "a.ts", path := "a.ts", type := FileType.file }]
  refine ⟨h.1, ?_⟩
  have h2 := h.2 { name := "a.ts", path := "a.ts", type := FileType.file } [] 0
    (by decide) (by decide) (by decide)
  rw [h2]
  rfl

/-- C7.  A file considered while budget remains whose size exceeds three
times the per-file cap and whose name is not a README/manifest/license
name is recorded without content and with the explanatory "File too
large..." error, and the fetch oracle is never consulted for it (the
equation holds for every `fetch` and its head does not depend on it). -/
theorem c7_theorem (fetch : GithubFile → FetchContentResult)
    (file : GithubFile) (rest : List GithubFile) (cnt s : Nat)
    (hcnt : cnt < MAX_FILES_FOR_CONTENT_FETCH)
    (hsize : file.size = some s)
    (hlarge : MAX_FILE_CONTENT_LENGTH * 3 < s)
    (hprio : isPriorityFile file = false) :
    selectionLoop fetch (file :: rest) cnt =
      { file with content := none, error := some (tooLargeError s) }
        :: selectionLoop fetch rest cnt := by
  have hskip : isSkippedLarge file = true := by
    have hs0 : (s != 0) = true := by
      simp only [bne_iff_ne, ne_eq]
      omega
    simp [isSkippedLarge, jsTruthyNat, hsize, hprio, hlarge, hs0]
  simp only [selectionLoop, hcnt, if_true, hskip, hsize]
  rfl

/-- Witness for C7: a 500000-byte binary-ish file. -/
theorem c7_witness :
    (0 : Nat) < MAX_FILES_FOR_CONTENT_FETCH ∧
    MAX_FILE_CONTENT_LENGTH * 3 < 500000 ∧
    isPriorityFile { name := "data.bin", path := "data.bin",
                     type := FileType.file, size := some 500000 } = false ∧
    selectionLoop (fun _ => { content := some "x", error := none })
        [{ name := "data.bin", path := "data.bin", type := FileType.file,
           size := some 500000 }] 0 =
      [{ name := "data.bin", path := "data.bin", type := FileType.file,
         size := some 500000, content := none,
         error := some (tooLargeError 500000) }] := by
  refine ⟨by decide, by decide, by decide, ?_⟩
  have h := c7_theorem (fun _ => { content := some "x", error := none })
    { name := "data.bin", path := "data.bin", type := FileType.file,
      size := some 500000 } [] 0 500000 (by decide) rfl (by decide) (by decide)
  rw [h]
  rfl

/-- C10.  A fetch that succeeds with the empty string is recorded with the
(empty) content present and no error, but the recursive call keeps the
same counter value: an empty-content fetch never consumes budget. -/
theorem c10_theorem (fetch : GithubFile → FetchContentResult)
    (file : GithubFile) (rest : List GithubFile) (cnt : Nat)
    (hcnt : cnt < MAX_FILES_FOR_CONTENT_FETCH)
    (hskip : isSkippedLarge file = false)
    (hfetch : fetch file = { content := some "", error := none })
    (herr : file.error = none) :
    selectionLoop fetch (file :: rest) cnt =
      { file with content := some "", error := none }
        :: selectionLoop fetch rest cnt := by
  have hemp : jsTruthy (some "") = false := rfl
  have hnone : jsTruthy (none : Option String) = false := rfl
  simp only [selectionLoop, hcnt, if_true, hskip, Bool.false_eq_true, if_false, hfetch,
    hemp, hnone, Bool.false_and, Bool.and_false]
  simp [herr]

/-- Witness for C10: one empty `__init__.py`-style file. -/
theorem c10_witness :
    (0 : Nat) < MAX_FILES_FOR_CONTENT_FETCH ∧
    isSkippedLarge { name := "init.py", path := "pkg/init.py",
                     type := FileType.file } = false ∧
    selectionLoop (fun _ => { content := some "", error := none })
        [{ name := "init.py", path := "pkg/init.py", type := FileType.file }] 0 =
      [{ name := "init.py", path := "pkg/init.py", type := FileType.file,
         content := some "", error := none }] := by
  refine ⟨by decide, by decide, ?_⟩
  have h := c10_theorem (fun _ => { content := some "", error := none })
    { name := "init.py", path := "pkg/init.py", type := FileType.file } [] 0
    (by decide) (by decide) rfl rfl
  rw [h]
  rfl

/-- Closed form of the selection loop once the budget is exhausted: the
remaining files that pass the over-budget relevance test are kept as
minimal entries, all others are dropped. -/
theorem selectionLoop_overBudget (fetch : GithubFile → FetchContentResult)
    (l : List GithubFile) :
    ∀ cnt : Nat, MAX_FILES_FOR_CONTENT_FETCH ≤ cnt →
      selectionLoop fetch l cnt = (l.filter overBudgetRelevant).map minimalEntry := by
  induction l with
  | nil => intro cnt _; simp [selectionLoop]
  | cons f rest ih =>
    intro cnt hcnt
    have hin : ¬ cnt < MAX_FILES_FOR_CONTENT_FETCH := by omega
    simp only [selectionLoop, hin, if_false, List.filter_cons]
    by_cases hrel : overBudgetRelevant f = true
    · simp [hrel, ih cnt hcnt]
    · simp [hrel, ih cnt hcnt]

/-- Twelve manifest files followed by a source file whose extension is
upper-cased; input is already in ascending tier order (3,…,3,4). -/
def c6Files : List GithubFile :=
  [{ name := "package.json", path := "package.json", type := FileType.file },
   { name := "pnpm-lock.yaml", path := "pnpm-lock.yaml", type := FileType.file },
   { name := "yarn.lock", path := "yarn.lock", type := FileType.file },
   { name := "package-lock.json", path := "package-lock.json", type := FileType.file },
   { name := "pyproject.toml", path := "pyproject.toml", type := FileType.file },
   { name := "poetry.lock", path := "poetry.lock", type := FileType.file },
   { name := "requirements.txt", path := "requirements.txt", type := FileType.file },
   { name := "composer.json", path := "composer.json", type := FileType.file },
   { name := "composer.lock", path := "composer.lock", type := FileType.file },
   { name := "Gemfile", path := "Gemfile", type := FileType.file },
   { name := "pom.xml", path := "pom.xml", type := FileType.file },
   { name := "build.gradle", path := "build.gradle", type := FileType.file },
   { name := "Z.TS", path := "src/Z.TS", type := FileType.file }]

/-- C6 counterexample.  After twelve successful fetches exhaust the budget,
the remaining file `src/Z.TS` *does* have a recognized source-code
extension in the (case-insensitive) sense used by the classifier — it is
classified tier 4 — yet it is dropped from the output entirely, because
the over-budget branch tests the extension case-sensitively against the
raw path.  This refutes the claim that every remaining file with a
recognized source extension appears as a minimal entry. -/
theorem c6_counterexample :
    getFilePriority { name := "Z.TS", path := "src/Z.TS", type := FileType.file } = 4 ∧
    SOURCE_FILE_EXTENSIONS.any
      (fun ext => strEndsWith (toLowerStr "src/Z.TS") ext) = true ∧
    (selectionLoop (fun _ => { content := some "x", error := none }) c6Files 0).length
      = 12 ∧
    (selectionLoop (fun _ => { content := some "x", error := none }) c6Files 0).all
      (fun f => f.path != "src/Z.TS") = true := by
  refine ⟨by decide, by decide, by decide, by decide⟩

/-- C6 amended.  Once the budget is exhausted, a remaining file appears in
the output exactly when it is a README/manifest/license file or its raw
path ends — case-sensitively — in a recognized source extension, and then
as a minimal entry: content removed and error set to the pre-existing
error if truthy, otherwise to the fetch-limit annotation; all other
remaining files are dropped.  The final output list is re-sorted by
priority tier in ascending order. -/
theorem c6_theorem :
    (∀ (fetch : GithubFile → FetchContentResult) (l : List GithubFile) (cnt : Nat),
      MAX_FILES_FOR_CONTENT_FETCH ≤ cnt →
      selectionLoop fetch l cnt = (l.filter overBudgetRelevant).map minimalEntry) ∧
    (∀ l : List GithubFile,
      List.Pairwise (fun a b => getFilePriority a ≤ getFilePriority b)
        (sortByPriority l)) :=
  ⟨fun fetch l cnt hcnt => selectionLoop_overBudget fetch l cnt hcnt,
   sortByPriority_pairwise⟩

/-- Witness for C6 at an exhausted budget over a README, a kept source
file and a dropped irrelevant file. -/
theorem c6_witness :
    MAX_FILES_FOR_CONTENT_FETCH ≤ 12 ∧
    selectionLoop (fun _ => { content := some "x", error := none })
        [{ name := "README.md", path := "README.md", type := FileType.file },
         { name := "junk.bin", path := "junk.bin", type := FileType.file }] 12 =
      (([{ name := "README.md", path := "README.md", type := FileType.file },
          { name := "junk.bin", path := "junk.bin", type := FileType.file }]
        : List GithubFile).filter overBudgetRelevant).map minimalEntry ∧
    List.Pairwise (fun a b => getFilePriority a ≤ getFilePriority b)
      (sortByPriority
        [{ name := "junk.bin", path := "junk.bin", type := FileType.file },
         { name := "README.md", path := "README.md", type := FileType.file }]) :=
  ⟨by decide,
   c6_theorem.1 (fun _ => { content := some "x", error := none })
     [{ name := "README.md", path := "README.md", type := FileType.file },
      { name := "junk.bin", path := "junk.bin", type := FileType.file }] 12 (by decide),
   c6_theorem.2
     [{ name := "junk.bin", path := "junk.bin", type := FileType.file },
      { name := "README.md", path := "README.md", type := FileType.file }]⟩

/-- C8.  The tier sort is stable: for every tier value, the subsequence of
entries of that tier in the sorted output is exactly the subsequence of
entries of that tier in the input, so two entries of equal tier keep
their relative input order. -/
theorem c8_theorem (l : List GithubFile) (t : Nat) :
    (sortByPriority l).filter (fun f => getFilePriority f == t) =
      l.filter (fun f => getFilePriority f == t) := by
  have hmem : ∀ a ∈ l.filter (fun f => getFilePriority f == t),
      (fun f => getFilePriority f == t) a = true :=
    fun a ha => (List.mem_filter.mp ha).2
  have hpw : List.Pairwise (fun a b => priorityLE a b = true)
      (l.filter (fun f => getFilePriority f == t)) := by
    apply List.pairwise_of_forall_mem_list
    intro a ha b hb
    have hat : getFilePriority a = t := by
      have := hmem a ha
      simpa using this
    have hbt : getFilePriority b = t := by
      have := hmem b hb
      simpa using this
    simp [priorityLE, hat, hbt]
  have hsub : (l.filter (fun f => getFilePriority f == t)).Sublist (sortByPriority l) :=
    List.sublist_mergeSort priorityLE_trans priorityLE_total hpw (List.filter_sublist l)
  have hself : (l.filter (fun f => getFilePriority f == t)).filter
      (fun f => getFilePriority f == t) = l.filter (fun f => getFilePriority f == t) :=
    List.filter_eq_self.mpr hmem
  have hsub2 : (l.filter (fun f => getFilePriority f == t)).Sublist
      ((sortByPriority l).filter (fun f => getFilePriority f == t)) := by
    have := hsub.filter (fun f => getFilePriority f == t)
    rwa [hself] at this
  have hlen : ((sortByPriority l).filter (fun f => getFilePriority f == t)).length =
      (l.filter (fun f => getFilePriority f == t)).length :=
    ((List.mergeSort_perm l priorityLE).filter (fun f => getFilePriority f == t)).length_eq
  exact (hsub2.eq_of_length hlen.symm).symm

/-- C9.  In any run reaching the tree phase, if the recursive tree request
fails with a non-success status then the shallow top-level fallback is
consulted (the `treePhase` flag is set whatever the fallback outcome),
and if the fallback also fails with a non-success status the tool result
carries an error and no `repoContents`. -/
theorem c9_theorem (env : RepoEnv) (pathname owner repo : String)
    (details : RepoDetails) (status : Nat) (statusText : String)
    (hurl : env.urlParse = .ok pathname)
    (hparse : parseOwnerRepo pathname = .ok (owner, repo))
    (hmeta : env.metaResp = .ok details)
    (htree : env.treeResp = .fail status statusText) :
    (treePhase owner repo (jsOrStr details.default_branch "master")
        env.treeResp env.contentsResp).2 = true ∧
    (∀ status2 statusText2, env.contentsResp = .fail status2 statusText2 →
      (fetchRepoInfoTool env).error.isSome = true ∧
      (fetchRepoInfoTool env).repoContents = none) := by
  constructor
  · rw [htree]
    cases env.contentsResp <;> rfl
  · intro status2 statusText2 hcont
    simp only [fetchRepoInfoTool, hurl, hparse, hmeta, htree, hcont, treePhase]
    exact ⟨rfl, trivial⟩

/-- Witness for C9: a concrete environment in which both listing attempts
fail with non-success statuses. -/
theorem c9_witness :
    (treePhase "acme" "widget" (jsOrStr (none : Option String) "master")
        (.fail 500 "Internal Server Error") (.fail 403 "Forbidden")).2 = true ∧
    (fetchRepoInfoTool
        { urlParse := .ok "/acme/widget"
          metaResp := .ok { name := "widget" }
          treeResp := .fail 500 "Internal Server Error"
          contentsResp := .fail 403 "Forbidden"
          net := fun _ => .notFound
          contribResp := .fail 500 "x" }).error.isSome = true ∧
    (fetchRepoInfoTool
        { urlParse := .ok "/acme/widget"
          metaResp := .ok { name := "widget" }
          treeResp := .fail 500 "Internal Server Error"
          contentsResp := .fail 403 "Forbidden"
          net := fun _ => .notFound
          contribResp := .fail 500 "x" }).repoContents = none := by
  have h := c9_theorem
    { urlParse := .ok "/acme/widget"
      metaResp := .ok { name := "widget" }
      treeResp := .fail 500 "Internal Server Error"
      contentsResp := .fail 403 "Forbidden"
      net := fun _ => .notFound
      contribResp := .fail 500 "x" }
    "/acme/widget" "acme" "widget" { name := "widget" } 500 "Internal Server Error"
    rfl (by rfl) rfl rfl
  exact ⟨h.1, (h.2 403 "Forbidden" rfl).1, (h.2 403 "Forbidden" rfl).2⟩

end ReadmeAI
